import Mathlib

/-
Verification of the RFM69 packet-radio driver (node-rfm69).

The development shallowly embeds the `Radio` class of the TypeScript
source.  Bus transfers become explicit state transitions over a device
model (a register file plus the hardware FIFO), the asynchronous methods
become computations in a state-plus-error monad `M`, and the rxjs
operators are embedded by their documented sequential semantics:
`concatMap` over the send queue is sequential draining, and
`interval(i).startWith(0) ... .timeout(t)` is a bounded number of poll
attempts (one attempt per tick time `k*i < t`).

Machine bytes are `Nat` with explicit `% 256` where `Buffer.from`
truncates; RSSI values are exact rationals; fallible code runs in
`Except RadioError`.
-/

set_option maxHeartbeats 1600000

deriving instance DecidableEq for Except

namespace Rfm69

/-- Modelled from the spec: the operating-mode enumeration `RfMode`
(file `./RfMode` is not under `src/`).  The spec's data model lists the
five modes Sleep, Standby, Synth, Rx, Tx. -/
inductive RfMode where
  | Sleep
  | Standby
  | Synth
  | Rx
  | Tx
  deriving DecidableEq, Repr

/-- Modelled from the spec: the error wrapper `RadioError` (file
`./RadioError` is not under `src/`).  One constructor per failure
condition of the spec's error taxonomy, plus `rangeErr` for the
JavaScript `RangeError` that `new Array(n)` raises for negative `n`. -/
inductive RadioError where
  | notInited
  | alreadyInited
  | modeReadyTimeout
  | packetTooBig
  | txInterruptTimeout
  | rssiTimeout
  | rangeErr
  deriving DecidableEq, Repr

namespace c

/-- Modelled from the spec: register address from `./constants` (not under
`src/`); the spec fixes register addresses per the hardware datasheet. -/
def REG_FIFO : Nat := 0x00

/-- Modelled from the spec: register address from `./constants` (RFM69
datasheet register map). -/
def REG_OPMODE : Nat := 0x01

/-- Modelled from the spec: register address from `./constants`. -/
def REG_FRFMSB : Nat := 0x07

/-- Modelled from the spec: register address from `./constants`. -/
def REG_FRFMID : Nat := 0x08

/-- Modelled from the spec: register address from `./constants`. -/
def REG_FRFLSB : Nat := 0x09

/-- Modelled from the spec: register address from `./constants`. -/
def REG_RSSICONFIG : Nat := 0x23

/-- Modelled from the spec: register address from `./constants`. -/
def REG_RSSIVALUE : Nat := 0x24

/-- Modelled from the spec: register address from `./constants`. -/
def REG_DIOMAPPING1 : Nat := 0x25

/-- Modelled from the spec: register address from `./constants`. -/
def REG_IRQFLAGS1 : Nat := 0x27

/-- Modelled from the spec: register address from `./constants`. -/
def REG_IRQFLAGS2 : Nat := 0x28

/-- Modelled from the spec: register address from `./constants`. -/
def REG_PACKETCONFIG2 : Nat := 0x3D

/-- Modelled from the spec: register address from `./constants`. -/
def REG_TESTPA1 : Nat := 0x5A

/-- Modelled from the spec: register address from `./constants`. -/
def REG_TESTPA2 : Nat := 0x5C

/-- Modelled from the spec: flag bit from `./constants` (mode-ready bit of
irq-flags-1). -/
def RF_IRQFLAGS1_MODEREADY : Nat := 0x80

/-- Modelled from the spec: flag bit from `./constants` (payload-ready bit
of irq-flags-2). -/
def RF_IRQFLAGS2_PAYLOADREADY : Nat := 0x04

/-- Modelled from the spec: op-mode field value from `./constants`. -/
def RF_OPMODE_SLEEP : Nat := 0x00

/-- Modelled from the spec: op-mode field value from `./constants`. -/
def RF_OPMODE_STANDBY : Nat := 0x04

/-- Modelled from the spec: op-mode field value from `./constants`. -/
def RF_OPMODE_SYNTHESIZER : Nat := 0x08

/-- Modelled from the spec: op-mode field value from `./constants`. -/
def RF_OPMODE_RECEIVER : Nat := 0x10

/-- Modelled from the spec: op-mode field value from `./constants`. -/
def RF_OPMODE_TRANSMITTER : Nat := 0x0C

/-- Modelled from the spec: DIO mapping value from `./constants`
(DIO0 = packet sent, used while transmitting). -/
def RF_DIOMAPPING1_DIO0_00 : Nat := 0x00

/-- Modelled from the spec: DIO mapping value from `./constants`
(DIO0 = payload ready, used while receiving). -/
def RF_DIOMAPPING1_DIO0_01 : Nat := 0x40

/-- Modelled from the spec: packet-config-2 RX-restart bit from
`./constants`. -/
def RF_PACKET2_RXRESTART : Nat := 0x04

/-- Modelled from the spec: RSSI measurement start bit from
`./constants`. -/
def RF_RSSI_START : Nat := 0x01

/-- Modelled from the spec: RSSI measurement done bit from
`./constants`. -/
def RF_RSSI_DONE : Nat := 0x02

end c

/-- `RF69_FSTEP = 61.03515625 == FXOSC / 2^19 = 32MHz / 2^19`; the value is
exactly the rational 15625/256. -/
def RF69_FSTEP : ℚ := 15625 / 256

/-- The device seen across the bus: the register file and the hardware
packet FIFO.  `regs` holds byte values; `fifo` holds the bytes the FIFO
will shift out on reads (reads pop from the front, writes append). -/
structure Dev where
  regs : Nat → Nat
  fifo : List Nat

/-- A received-packet event, as pushed on the `_data` subject
(`{ data, from, rssi }`; the `from` field is named `fromId` because
`from` is a reserved word in Lean). -/
structure Packet where
  data : List Nat
  fromId : Nat
  rssi : ℚ
  deriving DecidableEq, Repr

/-- The radio's state: the immutable construction-time configuration
(`_nodeId`, `_isRfm69Hw`), the stored current mode `_mode` (`none` =
still `undefined`), the environment's answer to "does the DIO0 interrupt
fire within the 50 ms transmit wait" (`txInterruptFires`), the device on
the other end of the bus, the trace of every outgoing bus buffer in
order, and the list of emitted received-packet events. -/
structure RadioState where
  nodeId : Nat
  isRfm69Hw : Bool
  mode : Option RfMode
  txInterruptFires : Bool
  dev : Dev
  trace : List (List Nat)
  events : List Packet

/-- The effect monad of the embedding: state passing plus an error channel
that preserves the state at the point of the throw (a rejected promise
does not roll back bus traffic already performed). -/
def M (α : Type) : Type := RadioState → Except RadioError α × RadioState

def M.pure {α : Type} (a : α) : M α := fun st => (Except.ok a, st)

def M.bind {α β : Type} (x : M α) (f : α → M β) : M β := fun st =>
  match x st with
  | (Except.ok a, st') => f a st'
  | (Except.error e, st') => (Except.error e, st')

instance : Monad M where
  pure := M.pure
  bind := M.bind

def getSt : M RadioState := fun st => (Except.ok st, st)

def modifySt (f : RadioState → RadioState) : M Unit := fun st => (Except.ok (), f st)

def throwM {α : Type} (e : RadioError) : M α := fun st => (Except.error e, st)

theorem run_pure {α : Type} (a : α) (st : RadioState) :
    (pure a : M α) st = (Except.ok a, st) := rfl

theorem run_bind {α β : Type} (x : M α) (f : α → M β) (st : RadioState) :
    (x >>= f) st =
      match x st with
      | (Except.ok a, st') => f a st'
      | (Except.error e, st') => (Except.error e, st') := rfl

theorem run_getSt (st : RadioState) : getSt st = (Except.ok st, st) := rfl

theorem run_modifySt (f : RadioState → RadioState) (st : RadioState) :
    modifySt f st = (Except.ok (), f st) := rfl

theorem run_throwM {α : Type} (e : RadioError) (st : RadioState) :
    (throwM e : M α) st = (Except.error e, st) := rfl

/-- Write a burst of byte values into consecutive registers starting at
address `a` (hardware address auto-increment). -/
def writeBytes (r : Nat → Nat) (a : Nat) : List Nat → (Nat → Nat)
  | [] => r
  | v :: vs => writeBytes (fun x => if x = a then v else r x) (a + 1) vs

/-- Device-side semantics of one full-duplex bus transfer.  The response
has the same length as the outgoing buffer and its first byte is the
content on the line before the call (modelled as 0).  A buffer whose
first byte has the MSB set is a write burst to address `b0 &&& 0x7F`
(writes to the FIFO address append to the FIFO, other writes fill
consecutive registers); otherwise it is a read burst from address `b0`
(reads of the FIFO address pop bytes off the FIFO, short FIFOs pad with
0; other reads return the register value). -/
def devTransfer (d : Dev) (buffer : List Nat) : List Nat × Dev :=
  match buffer with
  | [] => ([], d)
  | b0 :: rest =>
    if b0 &&& 0x80 ≠ 0 then
      let a := b0 &&& 0x7F
      if a = c.REG_FIFO then
        (List.replicate (rest.length + 1) 0, { d with fifo := d.fifo ++ rest })
      else
        (List.replicate (rest.length + 1) 0, { d with regs := writeBytes d.regs a rest })
    else
      if b0 = c.REG_FIFO then
        (0 :: (d.fifo.take rest.length ++ List.replicate (rest.length - d.fifo.length) 0),
         { d with fifo := d.fifo.drop rest.length })
      else
        (0 :: rest.map (fun _ => d.regs b0), d)

/-- `transfer(...data)`: build the outgoing buffer (`Buffer.from` truncates
every entry to a byte), hand it to the SPI transport, record it in the
trace and return the equal-length response. -/
def transfer (data : List Nat) : M (List Nat) := fun st =>
  let buffer := data.map (fun b => b % 256)
  let rd := devTransfer st.dev buffer
  (Except.ok rd.1, { st with dev := rd.2, trace := st.trace ++ [buffer] })

/-- `readReg(address)`: transfer `[address & 0x7F, 0]` and return the second
response byte. -/
def readReg (address : Nat) : M Nat := do
  let resp ← transfer [address &&& 0x7F, 0]
  pure (resp.getD 1 0)

/-- `writeReg(address, value)`: transfer `[address | 0x80, value]`. -/
def writeReg (address value : Nat) : M Unit := do
  let _ ← transfer [address ||| 0x80, value]
  pure ()

/-- `updateReg(address, mask, set)`: read the register and write back
`value & mask | set`. -/
def updateReg (address mask set : Nat) : M Unit := do
  let value ← readReg address
  writeReg address (value &&& mask ||| set)

/-- `hasFlag(register, flag)`: `(readReg(register) & flag) !== 0`. -/
def hasFlag (register flag : Nat) : M Bool := do
  let v ← readReg register
  pure (v &&& flag != 0)

/-- The `payloadReady` getter. -/
def payloadReady : M Bool :=
  hasFlag c.REG_IRQFLAGS2 c.RF_IRQFLAGS2_PAYLOADREADY

/-- The `modeReady` getter. -/
def modeReady : M Bool :=
  hasFlag c.REG_IRQFLAGS1 c.RF_IRQFLAGS1_MODEREADY

/-- The `rssiDone` getter. -/
def rssiDone : M Bool :=
  hasFlag c.REG_RSSICONFIG c.RF_RSSI_DONE

/-- One run of the `waitFor` poll loop with `n` attempts left: evaluate the
predicate; stop with `true` on success, report `false` (timeout) when the
attempts are used up. -/
def waitForAux (poll : M Bool) : Nat → M Bool
  | 0 => pure false
  | Nat.succ n => do
      let r ← poll
      if r then pure true else waitForAux poll n

/-- `waitFor(poll, timeout, interval)`:
`Observable.interval(interval).startWith(0).concatMap(poll).filter(done).timeout(timeout)`.
Attempts run at tick times `0, interval, 2*interval, ...`; attempts whose
tick time is below `timeout` complete before the timeout fires, so the
loop makes `timeout / interval` attempts and then times out (`false`).
The caller decides whether a timeout is fatal or swallowed. -/
def waitFor (poll : M Bool) (timeout interval : Nat) : M Bool :=
  waitForAux poll (timeout / interval)

/-- `setHighPowerRegs(onOff)`: the two test-PA register writes done on
Tx/Rx entry for high-power hardware. -/
def setHighPowerRegs (onOff : Bool) : M Unit := do
  writeReg c.REG_TESTPA1 (if onOff then 0x5D else 0x55)
  writeReg c.REG_TESTPA2 (if onOff then 0x7C else 0x70)

/-- The `switch (newMode)` block of `setMode`: write the op-mode bits with
a masked update (mask 0xE3 preserves the sequencer/listen bits), and on
Tx/Rx entry for high-power hardware (`hw` is the captured
`this._isRfm69Hw`) additionally toggle the boosted-PA test registers. -/
def setModeSetup (newMode : RfMode) (hw : Bool) : M Unit :=
  match newMode with
  | RfMode.Tx => do
      updateReg c.REG_OPMODE 0xE3 c.RF_OPMODE_TRANSMITTER
      if hw then setHighPowerRegs true
  | RfMode.Rx => do
      updateReg c.REG_OPMODE 0xE3 c.RF_OPMODE_RECEIVER
      if hw then setHighPowerRegs false
  | RfMode.Synth => updateReg c.REG_OPMODE 0xE3 c.RF_OPMODE_SYNTHESIZER
  | RfMode.Standby => updateReg c.REG_OPMODE 0xE3 c.RF_OPMODE_STANDBY
  | RfMode.Sleep => updateReg c.REG_OPMODE 0xE3 c.RF_OPMODE_SLEEP

/-- `setMode(newMode)`: return immediately when the target equals the
stored mode; otherwise run the switch block, then poll the mode-ready
flag (50 ms budget, 2 ms interval); on timeout throw the
mode-ready-timeout error leaving the stored mode unchanged, on success
store the new mode. -/
def setMode (newMode : RfMode) : M Unit := do
  let st ← getSt
  if some newMode = st.mode then
    pure ()
  else do
    setModeSetup newMode st.isRfm69Hw
    let ready ← waitFor modeReady 50 2
    if ready then
      modifySt (fun s => { s with mode := some newMode })
    else
      throwM RadioError.modeReadyTimeout

/-- `rxRestart()`: set the RX-restart bit of packet-config-2 with a masked
update. -/
def rxRestart : M Unit :=
  updateReg c.REG_PACKETCONFIG2 0xFB c.RF_PACKET2_RXRESTART

/-- `readRSSI(forceTrigger)`: optionally trigger a measurement and poll for
completion; then read the RSSI value register once and return
`-value / 2` dBm.  The quotient is written `Rat.divInt (-value) 2`, which
is exactly `-value / 2` in `ℚ` (`readRSSI_value` below) but stays
kernel-reducible. -/
def readRSSI (forceTrigger : Bool) : M ℚ := do
  if forceTrigger then do
    writeReg c.REG_RSSICONFIG c.RF_RSSI_START
    let done ← waitFor rssiDone 50 2
    if done then pure () else throwM RadioError.rssiTimeout
  let rssi ← readReg c.REG_RSSIVALUE
  pure (Rat.divInt (-(rssi : Int)) 2)


/-- `canSend()`: channel-clear test — in Rx mode with a non-forced RSSI
sample below -90 dBm, drop to Standby and report `true`; otherwise
`false` (short-circuit: no RSSI read outside Rx mode). -/
def canSend : M Bool := do
  let st ← getSt
  if st.mode = some RfMode.Rx then do
    let r ← readRSSI false
    if r < (-90 : ℚ) then do
      setMode RfMode.Standby
      pure true
    else
      pure false
  else
    pure false

/-- `receiveBegin()`: when a payload is already pending, issue an
RX-restart; map DIO0 to payload-ready and enter Rx mode. -/
def receiveBegin : M Unit := do
  let pr ← payloadReady
  if pr then rxRestart
  writeReg c.REG_DIOMAPPING1 c.RF_DIOMAPPING1_DIO0_01
  setMode RfMode.Rx

/-- Append one emitted event (`this._data.next(...)`). -/
def emitData (p : Packet) : M Unit :=
  modifySt (fun s => { s with events := s.events ++ [p] })

/-- `handleInterrupt()`: unless the stored mode is Rx (checked first,
short-circuiting) and the payload-ready flag is set, do nothing further.
Otherwise drop to Standby, read the 4 header bytes from the FIFO
(skipping the first response byte), clamp the declared length to 66,
take the RX-restart recovery path when the clamped length is below 3,
then read `clampedLength - 2` further FIFO bytes — `new Array(datalen)`
raises a RangeError when that count is negative, i.e. when the clamped
length is 0 or 1.  The emitted event's `data` is the full response
buffer of that read, including its first (dummy) byte.  Finally re-enter
Rx, sample RSSI non-forced and emit the event. -/
def handleInterrupt : M Unit := do
  let st ← getSt
  if st.mode = some RfMode.Rx then do
    let pr ← payloadReady
    if pr then do
      setMode RfMode.Standby
      let hdr ← transfer [c.REG_FIFO &&& 0x7F, 0, 0, 0, 0]
      let length := hdr.getD 1 0
      let senderId := hdr.getD 3 0
      let payloadLen := min length 66
      if payloadLen < 3 then
        receiveBegin
      if payloadLen < 2 then
        throwM RadioError.rangeErr
      else do
        let data ← transfer ((c.REG_FIFO &&& 0x7F) :: List.replicate (payloadLen - 2) 0)
        setMode RfMode.Rx
        let rssi ← readRSSI false
        emitData { data := data, fromId := senderId, rssi := rssi }

/-- `sendInternal(to, data)`: reject oversized payloads before any bus
access; RX-restart; carrier-sense via `waitFor(canSend, 500)` with the
timeout swallowed; force Standby; map DIO0 to packet-sent; write the
FIFO frame `[length = payload+2, to, nodeId, ...payload]`; enter Tx; the
transmit-complete wait succeeds when the environment delivers the DIO0
interrupt within its 50 ms budget, else the request fails with the
tx-interrupt-timeout error; finally return to Standby. -/
def sendInternal (toId : Nat) (data : List Nat) : M Unit := do
  if data.length > 62 then
    throwM RadioError.packetTooBig
  else do
    rxRestart
    let _ ← waitFor canSend 500 2
    setMode RfMode.Standby
    writeReg c.REG_DIOMAPPING1 c.RF_DIOMAPPING1_DIO0_00
    let st ← getSt
    let _ ← transfer ((c.REG_FIFO ||| 0x80) :: (data.length + 2) :: toId :: st.nodeId :: data)
    setMode RfMode.Tx
    let st2 ← getSt
    if st2.txInterruptFires then
      setMode RfMode.Standby
    else
      throwM RadioError.txInterruptTimeout

/-- `getFrequency()`: read the three frequency registers and scale the
24-bit triplet by the frequency step. -/
def getFrequency : M ℚ := do
  let msb ← readReg c.REG_FRFMSB
  let mid ← readReg c.REG_FRFMID
  let lsb ← readReg c.REG_FRFLSB
  pure (RF69_FSTEP * ((msb <<< 16) + (mid <<< 8) + lsb : Nat))

/-- `setFrequency(freqHz)`: leave Tx before touching the triplet; then
`freqHz /= Math.floor(RF69_FSTEP)` divides by `Math.floor(61.03515625)`,
that is by the integer 61 (and the `>>`/`&` operations truncate the
quotient, which for a nonnegative input is Nat division); write the three
bytes; pass through Synth when the prior mode was Rx; restore the prior
mode (`setMode(undefined)` when the mode was never set compares equal to
the stored `undefined` and returns without bus access). -/
def setFrequency (freqHz : Nat) : M Unit := do
  let st ← getSt
  let oldMode := st.mode
  if oldMode = some RfMode.Tx then
    setMode RfMode.Rx
  let frf := freqHz / 61
  writeReg c.REG_FRFMSB ((frf >>> 16) &&& 0xFF)
  writeReg c.REG_FRFMID ((frf >>> 8) &&& 0xFF)
  writeReg c.REG_FRFLSB (frf &&& 0xFF)
  if oldMode = some RfMode.Rx then
    setMode RfMode.Synth
  match oldMode with
  | some m => setMode m
  | none => pure ()

/-- One queued outbound request: destination address and payload
(the completion handles become the `Except` outcome `serveOne` records). -/
structure SendReq where
  toId : Nat
  data : List Nat

/-- One iteration of the send-queue drain loop body
(`concatMap(async s => { try { await sendInternal; resolve } catch { reject } })`):
run `sendInternal` and settle the request with its outcome; the iteration
itself never fails, so the drain continues with the next request. -/
def serveOne (req : SendReq) : M (Except RadioError Unit) := fun st =>
  match sendInternal req.toId req.data st with
  | (Except.ok _, st') => (Except.ok (Except.ok ()), st')
  | (Except.error e, st') => (Except.ok (Except.error e), st')

/-- The send-queue drain loop over a queue of submitted requests, in
arrival order.  `concatMap` subscribes to each inner task only after the
previous one completed, which is exactly sequential draining. -/
def drainSendQueue : List SendReq → M (List (Except RadioError Unit))
  | [] => pure []
  | r :: rs => do
      let a ← serveOne r
      let as ← drainSendQueue rs
      pure (a :: as)

/-- The session marker: whether `this._stop` is defined (`init` ran and
`stop` has not). -/
structure Session where
  running : Bool
  deriving DecidableEq, Repr

/-- The guard of `init()` (its first statement): fail when already
running, otherwise create the stop subject (Session becomes Running). -/
def initGuard (s : Session) : Except RadioError Session :=
  if s.running then Except.error RadioError.alreadyInited
  else Except.ok { running := true }

/-- The guard of `stop()`: fail when not running, otherwise complete the
stop subject (Session becomes Uninitialized). -/
def stopGuard (s : Session) : Except RadioError Session :=
  if s.running then Except.ok { running := false }
  else Except.error RadioError.notInited

/-- `send(to, data)`: the body only constructs a promise and pushes the
request onto the `_sendQueue` subject, so it never fails.  A subject
delivers only to current subscribers: while the session is running the
drain loop receives the request (it will be serviced and settled); while
it is not, the request is dropped and the returned promise never
settles.  The result is the queue of requests the drain loop will
actually service. -/
def sendCall (running : Bool) (pending : List SendReq) (req : SendReq) :
    Except RadioError (List SendReq) :=
  Except.ok (if running then pending ++ [req] else pending)

/-- The op-mode field value `setMode` writes for each target mode. -/
def opmodeBits : RfMode → Nat
  | RfMode.Tx => c.RF_OPMODE_TRANSMITTER
  | RfMode.Rx => c.RF_OPMODE_RECEIVER
  | RfMode.Synth => c.RF_OPMODE_SYNTHESIZER
  | RfMode.Standby => c.RF_OPMODE_STANDBY
  | RfMode.Sleep => c.RF_OPMODE_SLEEP

/-- The two masked-register-update bus buffers of the op-mode write of
`setMode target` against device `d` (the read, then the masked write). -/
def opmodeTrace (d : Dev) (target : RfMode) : List (List Nat) :=
  [[0x01, 0], [0x81, (d.regs 0x01 &&& 0xE3 ||| opmodeBits target) % 256]]

/-- The boosted-PA test-register writes `setMode` performs on Tx/Rx entry
for high-power hardware. -/
def paTrace (target : RfMode) (hw : Bool) : List (List Nat) :=
  match target, hw with
  | RfMode.Tx, true => [[0xDA, 0x5D], [0xDC, 0x7C]]
  | RfMode.Rx, true => [[0xDA, 0x55], [0xDC, 0x70]]
  | _, _ => []

/-- The device after the `setModeSetup` writes of `setMode target` against
device `d`: the masked op-mode write, plus the two test-PA writes on
Tx/Rx entry for high-power hardware. -/
def devAfterSetup (d : Dev) (target : RfMode) (hw : Bool) : Dev :=
  match target, hw with
  | RfMode.Tx, true =>
      { d with regs := fun x =>
          if x = 0x5C then 0x7C else if x = 0x5A then 0x5D
          else if x = 0x01 then (d.regs 0x01 &&& 0xE3 ||| opmodeBits target) % 256
          else d.regs x }
  | RfMode.Rx, true =>
      { d with regs := fun x =>
          if x = 0x5C then 0x70 else if x = 0x5A then 0x55
          else if x = 0x01 then (d.regs 0x01 &&& 0xE3 ||| opmodeBits target) % 256
          else d.regs x }
  | _, _ =>
      { d with regs := fun x =>
          if x = 0x01 then (d.regs 0x01 &&& 0xE3 ||| opmodeBits target) % 256
          else d.regs x }

/-- Whether a bus buffer is a FIFO write (first wire byte `REG_FIFO | 0x80`
= 0x80). -/
def isFifoWrite (b : List Nat) : Bool := b.headD 0 == 0x80

/-- A finite register assignment as a lookup function (unassigned
registers read 0), to build concrete device states. -/
def mkRegs : List (Nat × Nat) → Nat → Nat
  | [], _ => 0
  | (a, v) :: rest, x => if x = a then v else mkRegs rest x

/-- A concrete radio in Standby with a quiet device: default construction
configuration (nodeId 1, high-power hardware). -/
def baseState : RadioState :=
  { nodeId := 1, isRfm69Hw := true, mode := some RfMode.Standby,
    txInterruptFires := true,
    dev := { regs := mkRegs [], fifo := [] }, trace := [], events := [] }

/-- A concrete radio in Rx with mode-ready and payload-ready flags set, an
RSSI register of 180 (-90 dBm) and the frame of the spec's end-to-end
receive scenario in the FIFO: header `[5,1,5,0]`, payload `[9,9,9]`. -/
def rxFrameState : RadioState :=
  { baseState with
    mode := some RfMode.Rx,
    dev := { regs := mkRegs [(c.REG_IRQFLAGS1, 0x80), (c.REG_IRQFLAGS2, 0x04),
                             (c.REG_RSSIVALUE, 180)],
             fifo := [5, 1, 5, 0, 9, 9, 9] } }

/-- `rxFrameState` with the FIFO holding a frame whose declared length
is 2. -/
def rxLen2State : RadioState :=
  { rxFrameState with
    dev := { rxFrameState.dev with fifo := [2, 1, 5, 0] } }

/-- `rxFrameState` with the FIFO holding a frame whose declared length
is 1. -/
def rxLen1State : RadioState :=
  { rxFrameState with
    dev := { rxFrameState.dev with fifo := [1, 1, 5, 0] } }

/-- A concrete radio in Rx mode whose payload-ready flag is clear. -/
def rxIdleState : RadioState :=
  { baseState with mode := some RfMode.Rx }

/-- A concrete radio in Rx with the mode-ready flag set, a quiet channel
(RSSI register 255, i.e. -127.5 dBm) and the transmit-complete interrupt
arriving in time: the environment of a clean outbound send. -/
def txReadyState : RadioState :=
  { baseState with
    mode := some RfMode.Rx,
    dev := { regs := mkRegs [(c.REG_IRQFLAGS1, 0x80), (c.REG_RSSIVALUE, 255)],
             fifo := [] } }

/-- Trace monotonicity: a computation only appends to the bus trace
(it never reorders or erases recorded transfers), whether it succeeds
or throws. -/
def TraceMono {α : Type} (m : M α) : Prop :=
  ∀ st : RadioState, ∃ t, ((m st).2).trace = st.trace ++ t

/-!
## Proof toolkit

Composable run equations: each primitive operation's effect on an
arbitrary state, chained through `bind_runs`/`bind_error` so that large
compositions evaluate one step at a time.
-/

theorem bind_runs {α β : Type} {x : M α} {f : α → M β} {st st1 : RadioState} {a : α}
    {r : Except RadioError β × RadioState}
    (h1 : x st = (Except.ok a, st1)) (h2 : f a st1 = r) : (x >>= f) st = r := by
  rw [run_bind, h1]
  exact h2

theorem bind_error {α β : Type} {x : M α} {f : α → M β} {st st1 : RadioState}
    {e : RadioError} (h1 : x st = (Except.error e, st1)) :
    (x >>= f) st = (Except.error e, st1) := by
  rw [run_bind, h1]

/-- The value `readRSSI` returns for the register byte `r` is the
`-r / 2` of the source. -/
theorem readRSSI_value (r : Nat) : Rat.divInt (-(r : Int)) 2 = -(r : ℚ) / 2 := by
  rw [Rat.divInt_eq_div]
  push_cast
  ring

theorem readReg_opmode_run (st : RadioState) :
    readReg c.REG_OPMODE st =
      (Except.ok (st.dev.regs 0x01), { st with trace := st.trace ++ [[0x01, 0]] }) := rfl

theorem readReg_irqflags1_run (st : RadioState) :
    readReg c.REG_IRQFLAGS1 st =
      (Except.ok (st.dev.regs 0x27), { st with trace := st.trace ++ [[0x27, 0]] }) := rfl

theorem readReg_irqflags2_run (st : RadioState) :
    readReg c.REG_IRQFLAGS2 st =
      (Except.ok (st.dev.regs 0x28), { st with trace := st.trace ++ [[0x28, 0]] }) := rfl

theorem readReg_rssivalue_run (st : RadioState) :
    readReg c.REG_RSSIVALUE st =
      (Except.ok (st.dev.regs 0x24), { st with trace := st.trace ++ [[0x24, 0]] }) := rfl

theorem readReg_packetconfig2_run (st : RadioState) :
    readReg c.REG_PACKETCONFIG2 st =
      (Except.ok (st.dev.regs 0x3D), { st with trace := st.trace ++ [[0x3D, 0]] }) := rfl

theorem readReg_frfmsb_run (st : RadioState) :
    readReg c.REG_FRFMSB st =
      (Except.ok (st.dev.regs 0x07), { st with trace := st.trace ++ [[0x07, 0]] }) := rfl

theorem readReg_frfmid_run (st : RadioState) :
    readReg c.REG_FRFMID st =
      (Except.ok (st.dev.regs 0x08), { st with trace := st.trace ++ [[0x08, 0]] }) := rfl

theorem readReg_frflsb_run (st : RadioState) :
    readReg c.REG_FRFLSB st =
      (Except.ok (st.dev.regs 0x09), { st with trace := st.trace ++ [[0x09, 0]] }) := rfl

theorem writeReg_opmode_run (v : Nat) (st : RadioState) :
    writeReg c.REG_OPMODE v st =
      (Except.ok (),
       { st with
         dev := { st.dev with regs := fun x => if x = 0x01 then v % 256 else st.dev.regs x },
         trace := st.trace ++ [[0x81, v % 256]] }) := rfl

theorem writeReg_diomapping1_run (v : Nat) (st : RadioState) :
    writeReg c.REG_DIOMAPPING1 v st =
      (Except.ok (),
       { st with
         dev := { st.dev with regs := fun x => if x = 0x25 then v % 256 else st.dev.regs x },
         trace := st.trace ++ [[0xA5, v % 256]] }) := rfl

theorem writeReg_packetconfig2_run (v : Nat) (st : RadioState) :
    writeReg c.REG_PACKETCONFIG2 v st =
      (Except.ok (),
       { st with
         dev := { st.dev with regs := fun x => if x = 0x3D then v % 256 else st.dev.regs x },
         trace := st.trace ++ [[0xBD, v % 256]] }) := rfl

theorem writeReg_testpa1_run (v : Nat) (st : RadioState) :
    writeReg c.REG_TESTPA1 v st =
      (Except.ok (),
       { st with
         dev := { st.dev with regs := fun x => if x = 0x5A then v % 256 else st.dev.regs x },
         trace := st.trace ++ [[0xDA, v % 256]] }) := rfl

theorem writeReg_testpa2_run (v : Nat) (st : RadioState) :
    writeReg c.REG_TESTPA2 v st =
      (Except.ok (),
       { st with
         dev := { st.dev with regs := fun x => if x = 0x5C then v % 256 else st.dev.regs x },
         trace := st.trace ++ [[0xDC, v % 256]] }) := rfl

theorem writeReg_frfmsb_run (v : Nat) (st : RadioState) :
    writeReg c.REG_FRFMSB v st =
      (Except.ok (),
       { st with
         dev := { st.dev with regs := fun x => if x = 0x07 then v % 256 else st.dev.regs x },
         trace := st.trace ++ [[0x87, v % 256]] }) := rfl

theorem writeReg_frfmid_run (v : Nat) (st : RadioState) :
    writeReg c.REG_FRFMID v st =
      (Except.ok (),
       { st with
         dev := { st.dev with regs := fun x => if x = 0x08 then v % 256 else st.dev.regs x },
         trace := st.trace ++ [[0x88, v % 256]] }) := rfl

theorem writeReg_frflsb_run (v : Nat) (st : RadioState) :
    writeReg c.REG_FRFLSB v st =
      (Except.ok (),
       { st with
         dev := { st.dev with regs := fun x => if x = 0x09 then v % 256 else st.dev.regs x },
         trace := st.trace ++ [[0x89, v % 256]] }) := rfl

theorem payloadReady_run (st : RadioState) :
    payloadReady st =
      (Except.ok (st.dev.regs 0x28 &&& 0x04 != 0),
       { st with trace := st.trace ++ [[0x28, 0]] }) := rfl

theorem modeReady_run (st : RadioState) :
    modeReady st =
      (Except.ok (st.dev.regs 0x27 &&& 0x80 != 0),
       { st with trace := st.trace ++ [[0x27, 0]] }) := rfl

theorem readRSSI_run (st : RadioState) :
    readRSSI false st =
      (Except.ok (Rat.divInt (-(st.dev.regs 0x24 : Int)) 2),
       { st with trace := st.trace ++ [[0x24, 0]] }) := rfl

theorem fifoReadHdr_run (st : RadioState) :
    transfer [c.REG_FIFO &&& 0x7F, 0, 0, 0, 0] st =
      (Except.ok (0 :: (st.dev.fifo.take 4 ++ List.replicate (4 - st.dev.fifo.length) 0)),
       { st with
         dev := { st.dev with fifo := st.dev.fifo.drop 4 },
         trace := st.trace ++ [[0, 0, 0, 0, 0]] }) := rfl

theorem fifoReadData_run (n : Nat) (st : RadioState) :
    transfer ((c.REG_FIFO &&& 0x7F) :: List.replicate n 0) st =
      (Except.ok (0 :: (st.dev.fifo.take n ++ List.replicate (n - st.dev.fifo.length) 0)),
       { st with
         dev := { st.dev with fifo := st.dev.fifo.drop n },
         trace := st.trace ++ [[0] ++ List.replicate n 0] }) := by
  show transfer (0 :: List.replicate n 0) st = _
  unfold transfer devTransfer
  simp [List.map_replicate, c.REG_FIFO]

theorem updateReg_opmode_run (mask bits : Nat) (st : RadioState) :
    updateReg c.REG_OPMODE mask bits st =
      (Except.ok (),
       { st with
         dev := { st.dev with regs := fun x =>
           if x = 0x01 then (st.dev.regs 0x01 &&& mask ||| bits) % 256 else st.dev.regs x },
         trace := st.trace ++ [[0x01, 0], [0x81, (st.dev.regs 0x01 &&& mask ||| bits) % 256]] }) := by
  unfold updateReg
  refine bind_runs (readReg_opmode_run st) ?_
  rw [writeReg_opmode_run]
  simp

theorem rxRestart_run (st : RadioState) :
    rxRestart st =
      (Except.ok (),
       { st with
         dev := { st.dev with regs := fun x =>
           if x = 0x3D then (st.dev.regs 0x3D &&& 0xFB ||| 0x04) % 256 else st.dev.regs x },
         trace := st.trace ++ [[0x3D, 0], [0xBD, (st.dev.regs 0x3D &&& 0xFB ||| 0x04) % 256]] }) := by
  unfold rxRestart updateReg
  refine bind_runs (readReg_packetconfig2_run st) ?_
  rw [writeReg_packetconfig2_run]
  simp [c.RF_PACKET2_RXRESTART]

theorem setHighPowerRegs_true_run (st : RadioState) :
    setHighPowerRegs true st =
      (Except.ok (),
       { st with
         dev := { st.dev with regs := fun x =>
           if x = 0x5C then 0x7C else if x = 0x5A then 0x5D else st.dev.regs x },
         trace := st.trace ++ [[0xDA, 0x5D], [0xDC, 0x7C]] }) := by
  unfold setHighPowerRegs
  refine bind_runs (writeReg_testpa1_run _ st) ?_
  rw [writeReg_testpa2_run]
  simp

theorem setHighPowerRegs_false_run (st : RadioState) :
    setHighPowerRegs false st =
      (Except.ok (),
       { st with
         dev := { st.dev with regs := fun x =>
           if x = 0x5C then 0x70 else if x = 0x5A then 0x55 else st.dev.regs x },
         trace := st.trace ++ [[0xDA, 0x55], [0xDC, 0x70]] }) := by
  unfold setHighPowerRegs
  refine bind_runs (writeReg_testpa1_run _ st) ?_
  rw [writeReg_testpa2_run]
  simp

theorem setModeSetup_run (target : RfMode) (hw : Bool) (st : RadioState) :
    setModeSetup target hw st =
      (Except.ok (),
       { st with
         dev := devAfterSetup st.dev target hw,
         trace := st.trace ++ opmodeTrace st.dev target ++ paTrace target hw }) := by
  cases target <;> cases hw <;>
    · simp only [setModeSetup, reduceIte]
      first
      | (refine bind_runs (updateReg_opmode_run _ _ st) ?_
         try rw [setHighPowerRegs_true_run]
         try rw [setHighPowerRegs_false_run]
         simp [run_pure, devAfterSetup, opmodeTrace, paTrace, opmodeBits])
      | (rw [updateReg_opmode_run]
         simp [run_pure, devAfterSetup, opmodeTrace, paTrace, opmodeBits])

theorem devAfterSetup_fifo (d : Dev) (target : RfMode) (hw : Bool) :
    (devAfterSetup d target hw).fifo = d.fifo := by
  cases target <;> cases hw <;> rfl

theorem devAfterSetup_regs (d : Dev) (target : RfMode) (hw : Bool) (x : Nat)
    (h1 : x ≠ 0x01) (h2 : x ≠ 0x5A) (h3 : x ≠ 0x5C) :
    (devAfterSetup d target hw).regs x = d.regs x := by
  cases target <;> cases hw <;> simp [devAfterSetup, h1, h2, h3]

theorem waitForAux_modeReady_ready (n : Nat) (st : RadioState)
    (h : st.dev.regs 0x27 &&& 0x80 ≠ 0) :
    waitForAux modeReady (n + 1) st =
      (Except.ok true, { st with trace := st.trace ++ [[0x27, 0]] }) := by
  show (modeReady >>= fun r => if r then pure true else waitForAux modeReady n) st = _
  refine bind_runs (modeReady_run st) ?_
  have hb : (st.dev.regs 0x27 &&& 0x80 != 0) = true := by simpa using h
  rw [hb]
  rfl

theorem waitForAux_modeReady_timeout (n : Nat) : ∀ (st : RadioState),
    st.dev.regs 0x27 &&& 0x80 = 0 →
    waitForAux modeReady n st =
      (Except.ok false, { st with trace := st.trace ++ List.replicate n [0x27, 0] }) := by
  induction n with
  | zero =>
      intro st h
      show (pure false : M Bool) st = _
      simp [run_pure]
  | succ n ih =>
      intro st h
      show (modeReady >>= fun r => if r then pure true else waitForAux modeReady n) st = _
      refine bind_runs (modeReady_run st) ?_
      have hb : (st.dev.regs 0x27 &&& 0x80 != 0) = false := by simpa using h
      rw [hb]
      show waitForAux modeReady n { st with trace := st.trace ++ [[0x27, 0]] } = _
      rw [ih { st with trace := st.trace ++ [[0x27, 0]] } (by simpa using h)]
      simp [List.replicate_succ]

theorem waitFor_modeReady_ready_run (st : RadioState)
    (h : st.dev.regs 0x27 &&& 0x80 ≠ 0) :
    waitFor modeReady 50 2 st =
      (Except.ok true, { st with trace := st.trace ++ [[0x27, 0]] }) := by
  show waitForAux modeReady (24 + 1) st = _
  exact waitForAux_modeReady_ready 24 st h

theorem waitFor_modeReady_timeout_run (st : RadioState)
    (h : st.dev.regs 0x27 &&& 0x80 = 0) :
    waitFor modeReady 50 2 st =
      (Except.ok false,
       { st with trace := st.trace ++ List.replicate (50 / 2) [0x27, 0] }) := by
  show waitForAux modeReady 25 st = _
  exact waitForAux_modeReady_timeout 25 st h

theorem setMode_run_ready (target : RfMode) (st : RadioState)
    (hne : some target ≠ st.mode) (hready : st.dev.regs 0x27 &&& 0x80 ≠ 0) :
    setMode target st =
      (Except.ok (),
       { st with
         mode := some target,
         dev := devAfterSetup st.dev target st.isRfm69Hw,
         trace := st.trace ++ opmodeTrace st.dev target ++ paTrace target st.isRfm69Hw
                  ++ [[0x27, 0]] }) := by
  unfold setMode
  refine bind_runs (run_getSt st) ?_
  rw [if_neg hne]
  refine bind_runs (setModeSetup_run target st.isRfm69Hw st) ?_
  refine bind_runs (waitFor_modeReady_ready_run _ ?_) ?_
  · simpa [devAfterSetup_regs st.dev target st.isRfm69Hw 0x27 (by decide) (by decide) (by decide)]
      using hready
  · simp [run_modifySt]

theorem setMode_run_timeout (target : RfMode) (st : RadioState)
    (hne : some target ≠ st.mode) (hnotready : st.dev.regs 0x27 &&& 0x80 = 0) :
    setMode target st =
      (Except.error RadioError.modeReadyTimeout,
       { st with
         dev := devAfterSetup st.dev target st.isRfm69Hw,
         trace := st.trace ++ opmodeTrace st.dev target ++ paTrace target st.isRfm69Hw
                  ++ List.replicate (50 / 2) [0x27, 0] }) := by
  unfold setMode
  refine bind_runs (run_getSt st) ?_
  rw [if_neg hne]
  refine bind_runs (setModeSetup_run target st.isRfm69Hw st) ?_
  refine bind_runs (waitFor_modeReady_timeout_run _ ?_) ?_
  · simpa [devAfterSetup_regs st.dev target st.isRfm69Hw 0x27 (by decide) (by decide) (by decide)]
      using hnotready
  · simp [run_throwM]

theorem setMode_noop (m : RfMode) (st : RadioState) (h : st.mode = some m) :
    setMode m st = (Except.ok (), st) := by
  unfold setMode
  refine bind_runs (run_getSt st) ?_
  rw [if_pos h.symm]
  rfl

theorem emitData_run (p : Packet) (st : RadioState) :
    emitData p st = (Except.ok (), { st with events := st.events ++ [p] }) := rfl

theorem run_bind_assoc {α β γ : Type} (x : M α) (f : α → M β) (g : β → M γ) (st : RadioState) :
    ((x >>= f) >>= g) st = (x >>= fun a => f a >>= g) st := by
  simp only [run_bind]
  rcases hx : x st with ⟨r, st1⟩
  cases r <;> rfl

theorem handleInterrupt_notRx (st : RadioState) (hmode : st.mode ≠ some RfMode.Rx) :
    handleInterrupt st = (Except.ok (), st) := by
  unfold handleInterrupt
  refine bind_runs (run_getSt st) ?_
  rw [if_neg hmode]
  rfl

theorem handleInterrupt_noFlag (st : RadioState) (hmode : st.mode = some RfMode.Rx)
    (hpr : st.dev.regs 0x28 &&& 0x04 = 0) :
    handleInterrupt st = (Except.ok (), { st with trace := st.trace ++ [[0x28, 0]] }) := by
  unfold handleInterrupt
  refine bind_runs (run_getSt st) ?_
  rw [if_pos hmode]
  refine bind_runs (payloadReady_run st) ?_
  have hb : (st.dev.regs 0x28 &&& 0x04 != 0) = false := by simpa using hpr
  rw [hb]
  rfl

theorem handleInterrupt_normal (st : RadioState) (len tgt snd ctl : Nat) (rest : List Nat)
    (hmode : st.mode = some RfMode.Rx)
    (hpr : st.dev.regs 0x28 &&& 0x04 ≠ 0)
    (hready : st.dev.regs 0x27 &&& 0x80 ≠ 0)
    (hfifo : st.dev.fifo = len :: tgt :: snd :: ctl :: rest)
    (hlen : 3 ≤ len) :
    (handleInterrupt st).1 = Except.ok () ∧
    (handleInterrupt st).2.events = st.events ++
      [{ data := 0 :: (rest.take (min len 66 - 2) ++
                       List.replicate ((min len 66 - 2) - rest.length) 0),
         fromId := snd,
         rssi := Rat.divInt (-(st.dev.regs 0x24 : Int)) 2 }] ∧
    (handleInterrupt st).2.mode = some RfMode.Rx := by
  have hrun : handleInterrupt st = (Except.ok (), ?final) := ?chain
  case chain =>
    unfold handleInterrupt
    refine bind_runs (run_getSt st) ?_
    rw [if_pos hmode]
    refine bind_runs (payloadReady_run st) ?_
    have hb : (st.dev.regs 0x28 &&& 0x04 != 0) = true := by simpa using hpr
    rw [hb]
    simp only [reduceIte]
    refine bind_runs (setMode_run_ready RfMode.Standby _ ?_ ?_) ?_
    · simp [hmode]
    · simpa using hready
    refine bind_runs (fifoReadHdr_run _) ?_
    simp only [devAfterSetup_fifo, hfifo, List.take_succ_cons, List.take_zero,
      List.length_cons, List.drop_succ_cons, List.drop_zero]
    norm_num [List.getD]
    rw [if_neg (by omega : ¬ len < 3)]
    refine bind_runs (run_pure _ _) ?_
    rw [if_neg (by omega : ¬ len < 2)]
    refine bind_runs (fifoReadData_run _ _) ?_
    try dsimp only
    refine bind_runs (setMode_run_ready RfMode.Rx _ ?_ ?_) ?_
    · simp
    · simp [devAfterSetup_regs]
      simpa using hready
    refine bind_runs (readRSSI_run _) ?_
    exact emitData_run _ _
  rw [hrun]
  refine ⟨rfl, ?_, ?_⟩
  · simp [devAfterSetup_regs, devAfterSetup_fifo, hfifo]
  · simp
theorem handleInterrupt_len2 (st : RadioState) (tgt snd ctl : Nat) (rest : List Nat)
    (hmode : st.mode = some RfMode.Rx)
    (hpr : st.dev.regs 0x28 &&& 0x04 ≠ 0)
    (hready : st.dev.regs 0x27 &&& 0x80 ≠ 0)
    (hfifo : st.dev.fifo = 2 :: tgt :: snd :: ctl :: rest) :
    (handleInterrupt st).1 = Except.ok () ∧
    (handleInterrupt st).2.events = st.events ++
      [{ data := [0], fromId := snd,
         rssi := Rat.divInt (-(st.dev.regs 0x24 : Int)) 2 }] ∧
    [0xBD, (st.dev.regs 0x3D &&& 0xFB ||| 0x04) % 256] ∈ (handleInterrupt st).2.trace := by
  have hrun : handleInterrupt st = (Except.ok (), ?final) := ?chain
  case chain =>
    unfold handleInterrupt
    refine bind_runs (run_getSt st) ?_
    rw [if_pos hmode]
    refine bind_runs (payloadReady_run st) ?_
    have hb : (st.dev.regs 0x28 &&& 0x04 != 0) = true := by simpa using hpr
    rw [hb]
    simp only [reduceIte]
    refine bind_runs (setMode_run_ready RfMode.Standby _ ?_ ?_) ?_
    · simp [hmode]
    · simpa using hready
    refine bind_runs (fifoReadHdr_run _) ?_
    simp only [devAfterSetup_fifo, hfifo, List.take_succ_cons, List.take_zero,
      List.length_cons, List.drop_succ_cons, List.drop_zero]
    norm_num [List.getD]
    unfold receiveBegin
    refine (run_bind_assoc _ _ _ _).trans ?_
    refine bind_runs (payloadReady_run _) ?_
    have hb2 : ((devAfterSetup st.dev RfMode.Standby st.isRfm69Hw).regs 0x28
        &&& 0x04 != 0) = true := by
      rw [devAfterSetup_regs _ _ _ _ (by decide) (by decide) (by decide)]
      simpa using hpr
    rw [hb2]
    simp only [reduceIte]
    refine (run_bind_assoc _ _ _ _).trans ?_
    refine bind_runs (rxRestart_run _) ?_
    refine (run_bind_assoc _ _ _ _).trans ?_
    refine bind_runs (writeReg_diomapping1_run _ _) ?_
    refine bind_runs (setMode_run_ready RfMode.Rx _ ?_ ?_) ?_
    · simp
    · simp [devAfterSetup_regs]
      simpa using hready
    refine bind_runs (fifoReadData_run 0 _) ?_
    try dsimp only
    refine bind_runs (setMode_noop _ _ ?_) ?_
    · rfl
    refine bind_runs (readRSSI_run _) ?_
    exact emitData_run _ _
  rw [hrun]
  refine ⟨rfl, ?_, ?_⟩
  · simp [devAfterSetup_regs, devAfterSetup_fifo, hfifo]
  · simp [devAfterSetup_regs]
theorem handleInterrupt_lenSmall (st : RadioState) (len tgt snd ctl : Nat) (rest : List Nat)
    (hmode : st.mode = some RfMode.Rx)
    (hpr : st.dev.regs 0x28 &&& 0x04 ≠ 0)
    (hready : st.dev.regs 0x27 &&& 0x80 ≠ 0)
    (hfifo : st.dev.fifo = len :: tgt :: snd :: ctl :: rest)
    (hlen : len ≤ 1) :
    (handleInterrupt st).1 = Except.error RadioError.rangeErr ∧
    (handleInterrupt st).2.events = st.events ∧
    [0xBD, (st.dev.regs 0x3D &&& 0xFB ||| 0x04) % 256] ∈ (handleInterrupt st).2.trace := by
  have hrun : handleInterrupt st = (Except.error RadioError.rangeErr, ?final) := ?chain
  case chain =>
    unfold handleInterrupt
    refine bind_runs (run_getSt st) ?_
    rw [if_pos hmode]
    refine bind_runs (payloadReady_run st) ?_
    have hb : (st.dev.regs 0x28 &&& 0x04 != 0) = true := by simpa using hpr
    rw [hb]
    simp only [reduceIte]
    refine bind_runs (setMode_run_ready RfMode.Standby _ ?_ ?_) ?_
    · simp [hmode]
    · simpa using hready
    refine bind_runs (fifoReadHdr_run _) ?_
    simp only [devAfterSetup_fifo, hfifo, List.take_succ_cons, List.take_zero,
      List.length_cons, List.drop_succ_cons, List.drop_zero]
    norm_num [List.getD]
    rw [if_pos (by omega : len < 3)]
    unfold receiveBegin
    refine (run_bind_assoc _ _ _ _).trans ?_
    refine bind_runs (payloadReady_run _) ?_
    have hb2 : ((devAfterSetup st.dev RfMode.Standby st.isRfm69Hw).regs 0x28
        &&& 0x04 != 0) = true := by
      rw [devAfterSetup_regs _ _ _ _ (by decide) (by decide) (by decide)]
      simpa using hpr
    rw [hb2]
    simp only [reduceIte]
    refine (run_bind_assoc _ _ _ _).trans ?_
    refine bind_runs (rxRestart_run _) ?_
    refine (run_bind_assoc _ _ _ _).trans ?_
    refine bind_runs (writeReg_diomapping1_run _ _) ?_
    refine bind_runs (setMode_run_ready RfMode.Rx _ ?_ ?_) ?_
    · simp
    · simp [devAfterSetup_regs]
      simpa using hready
    rw [if_pos (by omega : len < 2)]
    exact run_throwM _ _
  rw [hrun]
  refine ⟨rfl, ?_, ?_⟩
  · simp
  · simp [devAfterSetup_regs]

theorem traceMono_pure {α : Type} (a : α) : TraceMono (pure a : M α) :=
  fun st => ⟨[], by rw [run_pure]; simp⟩

theorem traceMono_bind {α β : Type} {x : M α} {f : α → M β}
    (hx : TraceMono x) (hf : ∀ a, TraceMono (f a)) : TraceMono (x >>= f) := by
  intro st
  rcases hx st with ⟨t1, h1⟩
  rw [run_bind]
  rcases he : x st with ⟨r, st1⟩
  rw [he] at h1
  cases r with
  | ok a =>
      rcases hf a st1 with ⟨t2, h2⟩
      exact ⟨t1 ++ t2, by rw [h2, h1, List.append_assoc]⟩
  | error e => exact ⟨t1, h1⟩

theorem traceMono_getSt : TraceMono getSt :=
  fun st => ⟨[], by rw [run_getSt]; simp⟩

theorem traceMono_throwM {α : Type} (e : RadioError) : TraceMono (throwM e : M α) :=
  fun st => ⟨[], by rw [run_throwM]; simp⟩

theorem traceMono_modifySt (f : RadioState → RadioState)
    (hf : ∀ s, (f s).trace = s.trace) : TraceMono (modifySt f) :=
  fun st => ⟨[], by rw [run_modifySt]; simp [hf]⟩

theorem traceMono_transfer (data : List Nat) : TraceMono (transfer data) :=
  fun st => ⟨[data.map (fun b => b % 256)], rfl⟩

theorem traceMono_ite {α : Type} {C : Prop} [Decidable C] {a b : M α}
    (ha : TraceMono a) (hb : TraceMono b) : TraceMono (if C then a else b) := by
  by_cases h : C
  · rw [if_pos h]; exact ha
  · rw [if_neg h]; exact hb

theorem traceMono_readReg (a : Nat) : TraceMono (readReg a) :=
  traceMono_bind (traceMono_transfer _) (fun _ => traceMono_pure _)

theorem traceMono_writeReg (a v : Nat) : TraceMono (writeReg a v) :=
  traceMono_bind (traceMono_transfer _) (fun _ => traceMono_pure _)

theorem traceMono_updateReg (a m s : Nat) : TraceMono (updateReg a m s) :=
  traceMono_bind (traceMono_readReg _) (fun _ => traceMono_writeReg _ _)

theorem traceMono_hasFlag (r f : Nat) : TraceMono (hasFlag r f) :=
  traceMono_bind (traceMono_readReg _) (fun _ => traceMono_pure _)

theorem traceMono_waitForAux {poll : M Bool} (hp : TraceMono poll) :
    ∀ n, TraceMono (waitForAux poll n)
  | 0 => traceMono_pure _
  | Nat.succ n =>
      traceMono_bind hp (fun r =>
        traceMono_ite (traceMono_pure _) (traceMono_waitForAux hp n))

theorem traceMono_waitFor {poll : M Bool} (hp : TraceMono poll) (t i : Nat) :
    TraceMono (waitFor poll t i) :=
  traceMono_waitForAux hp _

theorem traceMono_setHighPowerRegs (b : Bool) : TraceMono (setHighPowerRegs b) :=
  traceMono_bind (traceMono_writeReg _ _) (fun _ => traceMono_writeReg _ _)

theorem traceMono_setModeSetup (m : RfMode) (hw : Bool) : TraceMono (setModeSetup m hw) := by
  cases m <;>
    first
    | exact traceMono_bind (traceMono_updateReg _ _ _)
        (fun _ => traceMono_ite (traceMono_setHighPowerRegs _) (traceMono_pure _))
    | exact traceMono_updateReg _ _ _

theorem traceMono_setMode (m : RfMode) : TraceMono (setMode m) := by
  refine traceMono_bind traceMono_getSt (fun st => ?_)
  refine traceMono_ite (traceMono_pure _) ?_
  refine traceMono_bind (traceMono_setModeSetup _ _) (fun _ => ?_)
  refine traceMono_bind
    (traceMono_waitFor (traceMono_hasFlag _ _) _ _) (fun ready => ?_)
  exact traceMono_ite (traceMono_modifySt _ (fun s => rfl)) (traceMono_throwM _)

theorem traceMono_rxRestart : TraceMono rxRestart :=
  traceMono_updateReg _ _ _

theorem traceMono_readRSSI (b : Bool) : TraceMono (readRSSI b) := by
  unfold readRSSI
  cases b <;> simp only [reduceIte]
  · exact traceMono_bind (traceMono_pure _)
      (fun _ => traceMono_bind (traceMono_readReg _) (fun _ => traceMono_pure _))
  · refine traceMono_bind (traceMono_writeReg _ _) (fun _ => ?_)
    refine traceMono_bind (traceMono_waitFor (traceMono_hasFlag _ _) _ _) (fun d => ?_)
    refine traceMono_ite ?_ ?_
    · exact traceMono_bind (traceMono_pure _)
        (fun _ => traceMono_bind (traceMono_readReg _) (fun _ => traceMono_pure _))
    · exact traceMono_bind (traceMono_throwM _)
        (fun _ => traceMono_bind (traceMono_readReg _) (fun _ => traceMono_pure _))

theorem traceMono_canSend : TraceMono canSend := by
  refine traceMono_bind traceMono_getSt (fun st => ?_)
  refine traceMono_ite ?_ (traceMono_pure _)
  refine traceMono_bind (traceMono_readRSSI _) (fun r => ?_)
  refine traceMono_ite ?_ (traceMono_pure _)
  exact traceMono_bind (traceMono_setMode _) (fun _ => traceMono_pure _)

theorem traceMono_sendInternal (toId : Nat) (data : List Nat) :
    TraceMono (sendInternal toId data) := by
  unfold sendInternal
  refine traceMono_ite (traceMono_throwM _) ?_
  refine traceMono_bind traceMono_rxRestart (fun _ => ?_)
  refine traceMono_bind (traceMono_waitFor traceMono_canSend _ _) (fun _ => ?_)
  refine traceMono_bind (traceMono_setMode _) (fun _ => ?_)
  refine traceMono_bind (traceMono_writeReg _ _) (fun _ => ?_)
  refine traceMono_bind traceMono_getSt (fun st => ?_)
  refine traceMono_bind (traceMono_transfer _) (fun _ => ?_)
  refine traceMono_bind (traceMono_setMode _) (fun _ => ?_)
  refine traceMono_bind traceMono_getSt (fun st2 => ?_)
  exact traceMono_ite (traceMono_setMode _) (traceMono_throwM _)

theorem serveOne_settles (req : SendReq) (st : RadioState) :
    ∃ out : Except RadioError Unit,
      serveOne req st = (Except.ok out, (sendInternal req.toId req.data st).2) := by
  unfold serveOne
  rcases h : sendInternal req.toId req.data st with ⟨r, st1⟩
  cases r with
  | ok a => exact ⟨Except.ok (), rfl⟩
  | error e => exact ⟨Except.error e, rfl⟩

theorem fifoWrite_run (bs : List Nat) (st : RadioState) :
    transfer ((c.REG_FIFO ||| 0x80) :: bs) st =
      (Except.ok (List.replicate ((bs.map (fun b => b % 256)).length + 1) 0),
       { st with
         dev := { st.dev with fifo := st.dev.fifo ++ bs.map (fun b => b % 256) },
         trace := st.trace ++ [0x80 :: bs.map (fun b => b % 256)] }) := by
  unfold transfer devTransfer
  simp [c.REG_FIFO, show (128 &&& 127 : Nat) = 0 from rfl]

theorem filter_paTrace (t : RfMode) (hw : Bool) :
    List.filter isFifoWrite (paTrace t hw) = [] := by
  cases t <;> cases hw <;> rfl

theorem sendInternal_reject (toId : Nat) (data : List Nat) (st : RadioState)
    (h : data.length > 62) :
    sendInternal toId data st = (Except.error RadioError.packetTooBig, st) := by
  unfold sendInternal
  rw [if_pos h]
  exact run_throwM _ _

theorem waitFor_canSend_clear_run (st : RadioState)
    (hmode : st.mode = some RfMode.Rx)
    (hrssi : Rat.divInt (-(st.dev.regs 0x24 : Int)) 2 < -90)
    (hready : st.dev.regs 0x27 &&& 0x80 ≠ 0) :
    waitFor canSend 500 2 st =
      (Except.ok true,
       { st with
         mode := some RfMode.Standby,
         dev := devAfterSetup st.dev RfMode.Standby st.isRfm69Hw,
         trace := st.trace ++ [[0x24, 0]] ++ opmodeTrace st.dev RfMode.Standby
                  ++ paTrace RfMode.Standby st.isRfm69Hw ++ [[0x27, 0]] }) := by
  have hstep : waitFor canSend 500 2 st =
      (canSend >>= fun r => if r then pure true else waitForAux canSend 249) st := rfl
  rw [hstep]
  unfold canSend
  refine (run_bind_assoc _ _ _ _).trans ?_
  refine bind_runs (run_getSt _) ?_
  rw [if_pos hmode]
  refine (run_bind_assoc _ _ _ _).trans ?_
  refine bind_runs (readRSSI_run _) ?_
  rw [if_pos hrssi]
  refine (run_bind_assoc _ _ _ _).trans ?_
  refine bind_runs (setMode_run_ready RfMode.Standby _ ?_ ?_) ?_
  · simp [hmode]
  · simpa using hready
  refine bind_runs (run_pure _ _) ?_
  rw [if_pos rfl, run_pure]
theorem sendInternal_ok_run (toId : Nat) (data : List Nat) (st : RadioState)
    (hlen : data.length ≤ 62)
    (hmode : st.mode = some RfMode.Rx)
    (hrssi : Rat.divInt (-(st.dev.regs 0x24 : Int)) 2 < -90)
    (hready : st.dev.regs 0x27 &&& 0x80 ≠ 0)
    (hfires : st.txInterruptFires = true) :
    (sendInternal toId data st).1 = Except.ok () ∧
    (sendInternal toId data st).2.trace.filter isFifoWrite
      = st.trace.filter isFifoWrite ++
        [0x80 :: ((data.length + 2) % 256) :: (toId % 256) :: (st.nodeId % 256) ::
          data.map (fun b => b % 256)] := by
  have hrun : sendInternal toId data st = (Except.ok (), ?final) := ?chain
  case chain =>
    unfold sendInternal
    rw [if_neg (by omega : ¬ data.length > 62)]
    refine bind_runs (rxRestart_run _) ?_
    refine bind_runs (waitFor_canSend_clear_run _ ?_ ?_ ?_) ?_
    · simpa using hmode
    · simpa using hrssi
    · simpa using hready
    refine bind_runs (setMode_noop _ _ ?_) ?_
    · rfl
    refine bind_runs (writeReg_diomapping1_run _ _) ?_
    refine bind_runs (run_getSt _) ?_
    refine bind_runs (fifoWrite_run _ _) ?_
    refine bind_runs (setMode_run_ready RfMode.Tx _ ?_ ?_) ?_
    · simp
    · simp [devAfterSetup_regs]
      simpa using hready
    refine bind_runs (run_getSt _) ?_
    rw [if_pos (show _ = true from hfires)]
    refine setMode_run_ready RfMode.Standby _ ?_ ?_
    · simp
    · simp [devAfterSetup_regs]
      simpa using hready
  rw [hrun]
  refine ⟨rfl, ?_⟩
  simp [isFifoWrite, opmodeTrace, filter_paTrace, List.filter_append]

/-- C2: the frequency round trip is NOT within one step: `setFrequency`
divides by `Math.floor(RF69_FSTEP) = 61` instead of by the step
61.03515625 (contradicting its own comment), so writing 433 MHz and
reading it back yields 13863984375/32 Hz which is about 249.5 kHz above
the requested frequency — more than one step (~61.04 Hz) away. -/
theorem setFrequency_roundTrip_433 :
    (setFrequency 433000000 baseState).1 = Except.ok () ∧
    (getFrequency (setFrequency 433000000 baseState).2).1
      = Except.ok ((13863984375 : ℚ) / 32) ∧
    (13863984375 : ℚ) / 32 - 433000000 > RF69_FSTEP := by
  have hrun : setFrequency 433000000 baseState = (Except.ok (), ?final) := ?chain
  case chain =>
    unfold setFrequency
    refine bind_runs (run_getSt _) ?_
    rw [if_neg (by decide : ¬ baseState.mode = some RfMode.Tx)]
    refine bind_runs (run_pure _ _) ?_
    refine bind_runs (writeReg_frfmsb_run _ _) ?_
    refine bind_runs (writeReg_frfmid_run _ _) ?_
    refine bind_runs (writeReg_frflsb_run _ _) ?_
    rw [if_neg (by decide : ¬ baseState.mode = some RfMode.Rx)]
    refine bind_runs (run_pure _ _) ?_
    refine setMode_noop _ _ ?_
    rfl
  have hget : getFrequency (setFrequency 433000000 baseState).2
      = (Except.ok ?v, ?final2) := ?chain2
  case chain2 =>
    rw [hrun]
    unfold getFrequency
    refine bind_runs (readReg_frfmsb_run _) ?_
    refine bind_runs (readReg_frfmid_run _) ?_
    refine bind_runs (readReg_frflsb_run _) ?_
    exact run_pure _ _
  refine ⟨by rw [hrun], ?_, by norm_num [RF69_FSTEP]⟩
  rw [hget]
  exact congrArg Except.ok (by
    norm_num [RF69_FSTEP, baseState, mkRegs, Nat.shiftLeft_eq,
      show ((433000000 / 61 : Nat) >>> 16 &&& 255) = 108 from by decide,
      show ((433000000 / 61 : Nat) >>> 8 &&& 255) = 79 from by decide,
      show ((433000000 / 61 : Nat) &&& 255) = 248 from by decide])

/-- C5: for two send requests A then B in a running session's queue, A's
servicing runs to a settled outcome, appending all its bus transfers,
strictly before B's servicing starts from the resulting state; B is
serviced (and settled) regardless of A's outcome, and the drain records
both outcomes in order. -/
theorem send_queue_fifo_spec (A B : SendReq) (st : RadioState) :
    ∃ (rA rB : Except RadioError Unit) (st1 st2 : RadioState)
      (tA tB : List (List Nat)),
      serveOne A st = (Except.ok rA, st1) ∧
      st1.trace = st.trace ++ tA ∧
      serveOne B st1 = (Except.ok rB, st2) ∧
      st2.trace = st1.trace ++ tB ∧
      drainSendQueue [A, B] st = (Except.ok [rA, rB], st2) := by
  obtain ⟨rA, hA⟩ := serveOne_settles A st
  obtain ⟨tA, htA⟩ := traceMono_sendInternal A.toId A.data st
  obtain ⟨rB, hB⟩ := serveOne_settles B (sendInternal A.toId A.data st).2
  obtain ⟨tB, htB⟩ := traceMono_sendInternal B.toId B.data (sendInternal A.toId A.data st).2
  refine ⟨rA, rB, _, _, tA, tB, hA, htA, hB, htB, ?_⟩
  show (serveOne A >>= fun a => drainSendQueue [B] >>= fun as => pure (a :: as)) st = _
  refine bind_runs hA ?_
  refine (run_bind_assoc _ _ _ _).trans ?_
  refine bind_runs hB ?_
  refine bind_runs (run_pure _ _) ?_
  exact run_pure _ _

/-- C1: at the spec's end-to-end receive input (header `[5,1,5,0]`,
payload `[9,9,9]`, Mode Rx, payload-ready set) the handler emits exactly
one event with `from = 5` and `rssi = -90 ≤ 0`, but its `data` is the
4-byte bus response `[0,9,9,9]` — the dummy byte clocked out during the
address byte followed by the payload — not the 3 payload bytes `[9,9,9]`
the claim states. -/
theorem handleInterrupt_failing_input_divergence :
    (handleInterrupt rxFrameState).1 = Except.ok () ∧
    (handleInterrupt rxFrameState).2.events =
      [{ data := [0, 9, 9, 9], fromId := 5, rssi := -90 }] ∧
    ((-90 : ℚ) ≤ 0) ∧
    ([0, 9, 9, 9] : List Nat) ≠ [9, 9, 9] := by
  obtain ⟨h1, h2, _⟩ := handleInterrupt_normal rxFrameState 5 1 5 0 [9, 9, 9]
    (by decide) (by decide) (by decide) (by decide) (by norm_num)
  refine ⟨h1, ?_, by norm_num, by decide⟩
  rw [h2]
  decide

/-- C3 counterexample: a frame whose clamped declared length is 2 (below
3) makes the handler emit an event — the single dummy response byte as
`data` — contradicting "emits no received-packet event for that
frame". -/
theorem handleInterrupt_len2_emits_event :
    (handleInterrupt rxLen2State).1 = Except.ok () ∧
    (handleInterrupt rxLen2State).2.events =
      [{ data := [0], fromId := 5, rssi := -90 }] := by
  obtain ⟨h1, h2, _⟩ := handleInterrupt_len2 rxLen2State 1 5 0 []
    (by decide) (by decide) (by decide) (by decide)
  refine ⟨h1, ?_⟩
  rw [h2]
  decide

/-- C3 (amended): a receive interrupt in Rx with payload-ready set and a
declared length below 3 always takes the RX-restart recovery path (the
packet-config-2 restart write appears on the bus); it emits no event for
that frame only when the clamped length is 0 or 1, where `new Array` of a
negative count raises a RangeError; for clamped length 2 it does emit one
event whose data is the single dummy response byte. -/
theorem handleInterrupt_shortFrame_spec (st : RadioState) (len tgt snd ctl : Nat)
    (rest : List Nat)
    (hmode : st.mode = some RfMode.Rx)
    (hpr : st.dev.regs 0x28 &&& 0x04 ≠ 0)
    (hready : st.dev.regs 0x27 &&& 0x80 ≠ 0)
    (hfifo : st.dev.fifo = len :: tgt :: snd :: ctl :: rest)
    (hlen : len < 3) :
    (∃ w, [0xBD, w] ∈ (handleInterrupt st).2.trace) ∧
    (len ≤ 1 →
      (handleInterrupt st).1 = Except.error RadioError.rangeErr ∧
      (handleInterrupt st).2.events = st.events) ∧
    (len = 2 →
      (handleInterrupt st).1 = Except.ok () ∧
      (handleInterrupt st).2.events = st.events ++
        [{ data := [0], fromId := snd,
           rssi := Rat.divInt (-(st.dev.regs 0x24 : Int)) 2 }]) := by
  by_cases h2 : len = 2
  · subst h2
    obtain ⟨h1, hev, hm⟩ := handleInterrupt_len2 st tgt snd ctl rest hmode hpr hready hfifo
    exact ⟨⟨_, hm⟩, fun h => absurd h (by norm_num), fun _ => ⟨h1, hev⟩⟩
  · have hle : len ≤ 1 := by omega
    obtain ⟨h1, hev, hm⟩ :=
      handleInterrupt_lenSmall st len tgt snd ctl rest hmode hpr hready hfifo hle
    exact ⟨⟨_, hm⟩, fun _ => ⟨h1, hev⟩, fun h => absurd h h2⟩

/-- C3 witness: the amended statement instantiated at the concrete
length-2 frame state. -/
theorem handleInterrupt_shortFrame_spec_witness :
    (∃ w, [0xBD, w] ∈ (handleInterrupt rxLen2State).2.trace) ∧
    ((2 : Nat) ≤ 1 →
      (handleInterrupt rxLen2State).1 = Except.error RadioError.rangeErr ∧
      (handleInterrupt rxLen2State).2.events = rxLen2State.events) ∧
    ((2 : Nat) = 2 →
      (handleInterrupt rxLen2State).1 = Except.ok () ∧
      (handleInterrupt rxLen2State).2.events = rxLen2State.events ++
        [{ data := [0], fromId := 5,
           rssi := Rat.divInt (-(rxLen2State.dev.regs 0x24 : Int)) 2 }]) :=
  handleInterrupt_shortFrame_spec rxLen2State 2 1 5 0 []
    (by decide) (by decide) (by decide) (by decide) (by norm_num)

/-- C10: a receive interrupt in Rx with payload-ready set whose clamped
declared FIFO length is 0 or 1 makes the handler raise the RangeError of
`new Array(clampedLength - 2)` (a negative count) instead of completing,
and no received-packet event is emitted. -/
theorem handleInterrupt_negative_datalen_spec (st : RadioState) (len tgt snd ctl : Nat)
    (rest : List Nat)
    (hmode : st.mode = some RfMode.Rx)
    (hpr : st.dev.regs 0x28 &&& 0x04 ≠ 0)
    (hready : st.dev.regs 0x27 &&& 0x80 ≠ 0)
    (hfifo : st.dev.fifo = len :: tgt :: snd :: ctl :: rest)
    (hlen : min len 66 ≤ 1) :
    (handleInterrupt st).1 = Except.error RadioError.rangeErr ∧
    (handleInterrupt st).2.events = st.events := by
  have hle : len ≤ 1 := by omega
  obtain ⟨h1, hev, _⟩ :=
    handleInterrupt_lenSmall st len tgt snd ctl rest hmode hpr hready hfifo hle
  exact ⟨h1, hev⟩

/-- C10 witness: the statement instantiated at the concrete length-1
frame state. -/
theorem handleInterrupt_negative_datalen_spec_witness :
    (handleInterrupt rxLen1State).1 = Except.error RadioError.rangeErr ∧
    (handleInterrupt rxLen1State).2.events = rxLen1State.events :=
  handleInterrupt_negative_datalen_spec rxLen1State 1 1 5 0 []
    (by decide) (by decide) (by decide) (by decide) (by norm_num)

/-- C7 counterexample: an interrupt while Mode == Rx but with the
payload-ready flag clear performs one bus transfer (the flag read
`[0x28, 0]`), not zero, while emitting no event. -/
theorem handleInterrupt_flagClear_one_transfer :
    handleInterrupt rxIdleState = (Except.ok (), { rxIdleState with trace := [[0x28, 0]] }) ∧
    ([[0x28, 0]] : List (List Nat)) ≠ [] := by
  constructor
  · have h := handleInterrupt_noFlag rxIdleState (by decide) (by decide)
    rw [h]
    rfl
  · decide

/-- C7 (amended): an interrupt while Mode ≠ Rx performs zero bus
transfers and emits no event (the whole state is untouched); an
interrupt while Mode == Rx with the payload-ready flag clear performs
exactly one bus transfer — the flag read — and emits no event. -/
theorem handleInterrupt_no_precondition_spec (st : RadioState) :
    (st.mode ≠ some RfMode.Rx → handleInterrupt st = (Except.ok (), st)) ∧
    (st.mode = some RfMode.Rx → st.dev.regs 0x28 &&& 0x04 = 0 →
      handleInterrupt st = (Except.ok (), { st with trace := st.trace ++ [[0x28, 0]] })) :=
  ⟨fun h => handleInterrupt_notRx st h, fun h1 h2 => handleInterrupt_noFlag st h1 h2⟩

/-- C7 witness: both branches instantiated at concrete states (Standby
mode; Rx mode with the flag clear). -/
theorem handleInterrupt_no_precondition_spec_witness :
    handleInterrupt baseState = (Except.ok (), baseState) ∧
    handleInterrupt rxIdleState =
      (Except.ok (), { rxIdleState with trace := rxIdleState.trace ++ [[0x28, 0]] }) :=
  ⟨(handleInterrupt_no_precondition_spec baseState).1 (by decide),
   (handleInterrupt_no_precondition_spec rxIdleState).2 (by decide) (by decide)⟩

/-- C9: `setMode` with the stored current mode as target returns
immediately: the whole state is unchanged, in particular zero bus
transfers are recorded. -/
theorem setMode_current_noop_spec (m : RfMode) (st : RadioState) (h : st.mode = some m) :
    setMode m st = (Except.ok (), st) ∧ (setMode m st).2.trace = st.trace := by
  have hrun := setMode_noop m st h
  exact ⟨hrun, by rw [hrun]⟩

/-- C9 witness: the statement instantiated at Standby with target
Standby. -/
theorem setMode_current_noop_spec_witness :
    setMode RfMode.Standby baseState = (Except.ok (), baseState) ∧
    (setMode RfMode.Standby baseState).2.trace = baseState.trace :=
  setMode_current_noop_spec RfMode.Standby baseState (by decide)
/-- C6: `setMode` toward a target different from the stored mode writes
the op-mode register (masked update: the read `[0x01,0]` then the write),
then polls the mode-ready flag on a 50 ms budget at a 2 ms interval; if
the flag is set the first poll succeeds and the stored mode becomes the
target; if the flag never sets, all `50 / 2` polls run, the call fails
with the mode-ready-timeout error and the stored mode is unchanged. -/
theorem setMode_poll_spec (target : RfMode) (st : RadioState)
    (hne : some target ≠ st.mode) :
    (st.dev.regs 0x27 &&& 0x80 ≠ 0 →
      (setMode target st).1 = Except.ok () ∧
      (setMode target st).2.mode = some target ∧
      (setMode target st).2.trace
        = st.trace ++ opmodeTrace st.dev target ++ paTrace target st.isRfm69Hw
          ++ [[0x27, 0]]) ∧
    (st.dev.regs 0x27 &&& 0x80 = 0 →
      (setMode target st).1 = Except.error RadioError.modeReadyTimeout ∧
      (setMode target st).2.mode = st.mode ∧
      (setMode target st).2.trace
        = st.trace ++ opmodeTrace st.dev target ++ paTrace target st.isRfm69Hw
          ++ List.replicate (50 / 2) [0x27, 0]) := by
  constructor
  · intro h
    rw [setMode_run_ready target st hne h]
    exact ⟨rfl, rfl, rfl⟩
  · intro h
    rw [setMode_run_timeout target st hne h]
    exact ⟨rfl, rfl, rfl⟩

/-- C6 witness: both scenarios instantiated concretely — mode-ready set
(Standby from Rx succeeds after one poll) and mode-ready clear (Tx from
Standby times out after the full 25-poll budget, mode unchanged). -/
theorem setMode_poll_spec_witness :
    ((setMode RfMode.Standby rxFrameState).1 = Except.ok () ∧
     (setMode RfMode.Standby rxFrameState).2.mode = some RfMode.Standby ∧
     (setMode RfMode.Standby rxFrameState).2.trace
       = rxFrameState.trace ++ opmodeTrace rxFrameState.dev RfMode.Standby
         ++ paTrace RfMode.Standby rxFrameState.isRfm69Hw ++ [[0x27, 0]]) ∧
    ((setMode RfMode.Tx baseState).1 = Except.error RadioError.modeReadyTimeout ∧
     (setMode RfMode.Tx baseState).2.mode = baseState.mode ∧
     (setMode RfMode.Tx baseState).2.trace
       = baseState.trace ++ opmodeTrace baseState.dev RfMode.Tx
         ++ paTrace RfMode.Tx baseState.isRfm69Hw
         ++ List.replicate (50 / 2) [0x27, 0]) :=
  ⟨(setMode_poll_spec RfMode.Standby rxFrameState (by decide)).1 (by decide),
   (setMode_poll_spec RfMode.Tx baseState (by decide)).2 (by decide)⟩

/-- C4: a send request with a payload longer than 62 bytes fails with the
packet-too-big error before any bus transfer (the state, trace included,
is exactly the input state); with a payload of at most 62 bytes (in a
clear-channel, mode-ready, interrupt-delivering environment, all values
in byte range) the servicing succeeds and writes exactly one FIFO frame,
`[length = payload + 2, destination, own node id, ...payload]`. -/
theorem send_frame_spec (toId : Nat) (data : List Nat) (st : RadioState) :
    (data.length > 62 →
      sendInternal toId data st = (Except.error RadioError.packetTooBig, st)) ∧
    (data.length ≤ 62 → st.mode = some RfMode.Rx →
      Rat.divInt (-(st.dev.regs 0x24 : Int)) 2 < -90 →
      st.dev.regs 0x27 &&& 0x80 ≠ 0 → st.txInterruptFires = true →
      toId < 256 → st.nodeId < 256 → (∀ b ∈ data, b < 256) →
      (sendInternal toId data st).1 = Except.ok () ∧
      (sendInternal toId data st).2.trace.filter isFifoWrite
        = st.trace.filter isFifoWrite
          ++ [0x80 :: (data.length + 2) :: toId :: st.nodeId :: data]) := by
  constructor
  · exact sendInternal_reject toId data st
  · intro h1 h2 h3 h4 h5 h6 h7 h8
    obtain ⟨hok, htr⟩ := sendInternal_ok_run toId data st h1 h2 h3 h4 h5
    refine ⟨hok, ?_⟩
    rw [htr]
    have hmap : ∀ l : List Nat, (∀ b ∈ l, b < 256) → l.map (fun b => b % 256) = l := by
      intro l
      induction l with
      | nil => intro _; rfl
      | cons a t ih =>
          intro hl
          simp only [List.map_cons]
          rw [Nat.mod_eq_of_lt (hl a (List.mem_cons_self a t)),
            ih (fun b hb => hl b (List.mem_cons_of_mem a hb))]
    rw [hmap data h8, Nat.mod_eq_of_lt (by omega : data.length + 2 < 256),
      Nat.mod_eq_of_lt h6, Nat.mod_eq_of_lt h7]

/-- C4 witness: both branches instantiated — a 63-byte payload is
rejected with the state untouched, and the payload `[1,2,3]` to
destination 5 produces exactly the FIFO frame `[0x80,5,5,1,1,2,3]`. -/
theorem send_frame_spec_witness :
    (sendInternal 5 (List.replicate 63 0) txReadyState
      = (Except.error RadioError.packetTooBig, txReadyState)) ∧
    ((sendInternal 5 [1, 2, 3] txReadyState).1 = Except.ok () ∧
     (sendInternal 5 [1, 2, 3] txReadyState).2.trace.filter isFifoWrite
       = [[0x80, 5, 5, 1, 1, 2, 3]]) :=
  ⟨(send_frame_spec 5 (List.replicate 63 0) txReadyState).1 (by decide),
   (send_frame_spec 5 [1, 2, 3] txReadyState).2 (by decide) (by decide) (by decide)
     (by decide) (by decide) (by decide) (by decide) (by decide)⟩

/-- C8 counterexample: `send` in an Uninitialized session does not fail —
the call returns without error — and the request is dropped by the
subscriber-less queue subject, so its promise never settles (it is not
among the requests the drain loop will service). -/
theorem send_uninitialized_no_error :
    sendCall false [] { toId := 5, data := [1, 2, 3] } =
      Except.ok ([] : List SendReq) := rfl

/-- C8 (amended): `init()` while Running fails AlreadyInitialized and
`stop()` while Uninitialized fails NotInitialized; `send()` while
Uninitialized does not fail — it completes without error while the
request is dropped, so the returned promise never settles. -/
theorem session_guard_spec :
    (∀ s : Session, s.running = true →
      initGuard s = Except.error RadioError.alreadyInited) ∧
    (∀ s : Session, s.running = false →
      stopGuard s = Except.error RadioError.notInited) ∧
    (∀ (q : List SendReq) (r : SendReq), sendCall false q r = Except.ok q) := by
  refine ⟨fun s h => ?_, fun s h => ?_, fun q r => rfl⟩
  · unfold initGuard
    rw [if_pos h]
  · unfold stopGuard
    rw [if_neg (by rw [h]; exact Bool.false_ne_true)]

/-- C8 witness: the three conjuncts instantiated at concrete sessions and
a concrete request. -/
theorem session_guard_spec_witness :
    initGuard { running := true } = Except.error RadioError.alreadyInited ∧
    stopGuard { running := false } = Except.error RadioError.notInited ∧
    sendCall false [] { toId := 1, data := [] } = Except.ok ([] : List SendReq) :=
  ⟨session_guard_spec.1 _ rfl, session_guard_spec.2.1 _ rfl,
   session_guard_spec.2.2 [] { toId := 1, data := [] }⟩

end Rfm69
